import Mathlib

/-!
Shallow embedding of the `sync-unsafe-cell` crate (`src/lib.rs`), a backport
of the standard library's `SyncUnsafeCell`: a `#[repr(transparent)]` wrapper
around `core::cell::UnsafeCell<T>` that additionally implements `Sync` when
`T` does.

Value-level semantics: the two wrapper structs are embedded as single-field
Lean structures; `into_inner`, `new`, `Default::default` and `From::from` are
pure functions on them.  A Rust mutable reference `&mut T` produced by
`get_mut` is embedded as a lens (a read function and a write function on the
referent's container).  Pointer-level semantics (`get`, `raw_get`): a raw
pointer is its numeric address (`Nat`); by `#[repr(transparent)]` both casts
in the source preserve the address, so the embedded operations are
address-preserving.  `raw_get` additionally receives the ambient memory state
so that its independence from that state (it is a pure cast and performs no
read) is statable; its body, like the source's, never consults it.
-/

/-- Embeds `core::cell::UnsafeCell<T>`: a `#[repr(transparent)]` struct with a
single field `value: T`. -/
structure UnsafeCell (T : Type) where
  value : T

/-- Embeds the struct `SyncUnsafeCell<T>` of `src/lib.rs` (lines 29-32): a
`#[repr(transparent)]` struct with a single field `value: UnsafeCell<T>`. -/
structure SyncUnsafeCell (T : Type) where
  value : UnsafeCell T

/-- Embeds `UnsafeCell::new(value)`: wraps the value in the struct. -/
def UnsafeCell.new {T : Type} (value : T) : UnsafeCell T :=
  { value := value }

/-- Embeds `UnsafeCell::into_inner(self)`: moves the single field out. -/
def UnsafeCell.into_inner {T : Type} (self : UnsafeCell T) : T :=
  self.value

/-- Embeds `SyncUnsafeCell::new(value)` (lib.rs lines 39-43):
`Self { value: UnsafeCell::new(value) }`. -/
def SyncUnsafeCell.new {T : Type} (value : T) : SyncUnsafeCell T :=
  { value := UnsafeCell.new value }

/-- Embeds `SyncUnsafeCell::into_inner(self)` (lib.rs lines 47-49):
`self.value.into_inner()`. -/
def SyncUnsafeCell.into_inner {T : Type} (self : SyncUnsafeCell T) : T :=
  self.value.into_inner

/-- A Rust mutable reference `&mut T` into a container `S`, embedded as a
lens: `get` reads the referent, `set` writes a new value through it. -/
structure MutRef (S T : Type) where
  get : S → T
  set : S → T → S

/-- Embeds `UnsafeCell::get_mut(&mut self) -> &mut T`: the returned reference
denotes the struct's single `value` field. -/
def UnsafeCell.get_mut {T : Type} : MutRef (UnsafeCell T) T :=
  { get := fun self => self.value
    set := fun self w => { self with value := w } }

/-- Embeds `SyncUnsafeCell::get_mut(&mut self) -> &mut T` (lib.rs lines
68-70): `self.value.get_mut()`, the reference obtained by projecting to the
`value` field and applying `UnsafeCell::get_mut` there. -/
def SyncUnsafeCell.get_mut {T : Type} : MutRef (SyncUnsafeCell T) T :=
  { get := fun self => UnsafeCell.get_mut.get self.value
    set := fun self w => { self with value := UnsafeCell.get_mut.set self.value w } }

/-- Embeds `impl Default for SyncUnsafeCell<T>` (lib.rs lines 84-89):
`SyncUnsafeCell::new(Default::default())`.  Rust's `Default::default()` for
`T` is embedded as the distinguished value of an `Inhabited` instance. -/
def SyncUnsafeCell.default (T : Type) [Inhabited T] : SyncUnsafeCell T :=
  SyncUnsafeCell.new (Inhabited.default : T)

/-- Embeds `impl From<T> for SyncUnsafeCell<T>` (lib.rs lines 91-96):
`fn from(t: T) { SyncUnsafeCell::new(t) }`.  Named `fromValue` because `from`
is a reserved word in Lean. -/
def SyncUnsafeCell.fromValue {T : Type} (t : T) : SyncUnsafeCell T :=
  SyncUnsafeCell.new t

/-- The memory state of the program, at byte granularity: each address holds
either an initialized byte or nothing (uninitialized). -/
def Memory : Type :=
  Nat → Option Nat

/-- Result of an operation that yields a raw pointer: either a pointer value
(its numeric address) or a memory fault. -/
inductive PtrResult where
  | ok (addr : Nat)
  | fault
  deriving DecidableEq

/-- Embeds `SyncUnsafeCell::get(&self) -> *mut T` (lib.rs lines 59-61), which
is `self.value.get()`, i.e. `UnsafeCell::get`: a cast of the receiver's
address `&self as *const UnsafeCell<T> as *const T as *mut T`.  Both structs
are `#[repr(transparent)]`, so the cast preserves the address. -/
def SyncUnsafeCell.get (self : Nat) : Nat :=
  self

/-- Embeds `SyncUnsafeCell::raw_get(this: *const Self) -> *mut T` (lib.rs
lines 76-81): `this as *const T as *mut T`, a pure pointer cast that by
`#[repr(transparent)]` preserves the address.  The ambient memory state is
passed as an argument so that independence from it is statable; exactly as in
the source, the body performs no read of it and cannot fault. -/
def SyncUnsafeCell.raw_get (m : Memory) (this : Nat) : PtrResult :=
  PtrResult.ok this

/-- Reinterpretation (bit-identity) of a raw pointer at another pointee type:
the address is unchanged. -/
def ptrCast (addr : Nat) : Nat :=
  addr

/-- Option-monad transcription of `SyncUnsafeCell::new`: the body is a struct
literal with no panic site, so no execution path yields `none`. -/
def SyncUnsafeCell.new_checked {T : Type} (value : T) : Option (SyncUnsafeCell T) :=
  some (SyncUnsafeCell.new value)

/-- Option-monad transcription of `SyncUnsafeCell::into_inner`: a field move
with no panic site. -/
def SyncUnsafeCell.into_inner_checked {T : Type} (self : SyncUnsafeCell T) : Option T :=
  some self.into_inner

/-- Option-monad transcription of `SyncUnsafeCell::get`: a pointer cast with
no panic site. -/
def SyncUnsafeCell.get_checked (self : Nat) : Option Nat :=
  some (SyncUnsafeCell.get self)

/-- Option-monad transcription of `SyncUnsafeCell::get_mut` called on a cell:
yields the mutable reference (as its read value and write continuation); the
body is a field projection with no panic site. -/
def SyncUnsafeCell.get_mut_checked {T : Type} (self : SyncUnsafeCell T) :
    Option (T × (T → SyncUnsafeCell T)) :=
  some (SyncUnsafeCell.get_mut.get self, SyncUnsafeCell.get_mut.set self)

/-- Option-monad transcription of `SyncUnsafeCell::raw_get`: a pointer cast
with no panic site and no memory access. -/
def SyncUnsafeCell.raw_get_checked (m : Memory) (this : Nat) : Option PtrResult :=
  some (SyncUnsafeCell.raw_get m this)

/-- Option-monad transcription of `<SyncUnsafeCell as Default>::default`:
delegates to `new` on `T`'s default value; no panic site of its own. -/
def SyncUnsafeCell.default_checked (T : Type) [Inhabited T] : Option (SyncUnsafeCell T) :=
  some (SyncUnsafeCell.default T)

/-- Option-monad transcription of `<SyncUnsafeCell as From<T>>::from`:
delegates to `new`; no panic site. -/
def SyncUnsafeCell.fromValue_checked {T : Type} (t : T) : Option (SyncUnsafeCell T) :=
  some (SyncUnsafeCell.fromValue t)

/-- C1: for every value `v` of any type `T`, wrapping `v` with
`SyncUnsafeCell::new` and then calling `into_inner` returns `v` itself, so
the round trip yields a value equal to `v` under any equality on `T`. -/
theorem c1_new_into_inner_round_trip {T : Type} (v : T) :
    (SyncUnsafeCell.new v).into_inner = v :=
  rfl

/-- C2: for every initial value `v` and every value `w` written through the
mutable reference returned by `get_mut` on a cell constructed from `v`, a
subsequent `into_inner` returns `w`. -/
theorem c2_get_mut_write_into_inner {T : Type} (v w : T) :
    (SyncUnsafeCell.get_mut.set (SyncUnsafeCell.new v) w).into_inner = w :=
  rfl

/-- C3: for every type `T` with a default value, default-constructing
`SyncUnsafeCell<T>` and calling `into_inner` yields `T`'s default value. -/
theorem c3_default_into_inner (T : Type) [Inhabited T] :
    (SyncUnsafeCell.default T).into_inner = (Inhabited.default : T) :=
  rfl

/-- C4: for every input value `t`, constructing via `From::from` and via
`SyncUnsafeCell::new` produce observably identical results under
`into_inner`. -/
theorem c4_from_equals_new {T : Type} (t : T) :
    (SyncUnsafeCell.fromValue t).into_inner = (SyncUnsafeCell.new t).into_inner :=
  rfl

/-- C5: every operation of the primitive (`new`, `into_inner`, `get`,
`get_mut`, `raw_get`, `default`, `from`) is total: its Option-monad
transcription, in which any panic would be `none`, returns `some` on every
input in its signature. -/
theorem c5_all_operations_total (T : Type) [Inhabited T] (v : T)
    (c : SyncUnsafeCell T) (m : Memory) (p : Nat) :
    (SyncUnsafeCell.new_checked v).isSome ∧
    (SyncUnsafeCell.into_inner_checked c).isSome ∧
    (SyncUnsafeCell.get_checked p).isSome ∧
    (SyncUnsafeCell.get_mut_checked c).isSome ∧
    (SyncUnsafeCell.raw_get_checked m p).isSome ∧
    (SyncUnsafeCell.default_checked T).isSome ∧
    (SyncUnsafeCell.fromValue_checked v).isSome :=
  ⟨rfl, rfl, rfl, rfl, rfl, rfl, rfl⟩

/-- C6: for every cell instance (identified by its address `a`), the raw
mutable pointer returned by `get` on a reference to the cell is bit-identical
to the cell's own address reinterpreted as a pointer to `T`. -/
theorem c6_get_is_address (a : Nat) :
    SyncUnsafeCell.get a = ptrCast a :=
  rfl

/-- C7: for every raw pointer `p` to a `SyncUnsafeCell<T>`, `raw_get` only
casts the pointer: its result is the same under every memory state (in
particular one where `p` is uninitialized), is never a fault, and equals the
input address reinterpreted as a pointer to `T`. -/
theorem c7_raw_get_no_deref (m₁ m₂ : Memory) (p : Nat) :
    SyncUnsafeCell.raw_get m₁ p = SyncUnsafeCell.raw_get m₂ p ∧
    SyncUnsafeCell.raw_get m₁ p = PtrResult.ok (ptrCast p) :=
  ⟨rfl, rfl⟩

/-- C10: for every cell instance (at address `a`) and every memory state, the
two pointer accessors agree: `raw_get` applied to the cell's address returns
the same raw mutable pointer as `get` applied to a reference to the cell. -/
theorem c10_raw_get_agrees_with_get (m : Memory) (a : Nat) :
    SyncUnsafeCell.raw_get m a = PtrResult.ok (SyncUnsafeCell.get a) :=
  rfl
